import Mathlib

set_option maxRecDepth 100000

/-!
# Verification of the multi-model debate API route

A shallow embedding of `src/app/api/chat/route.ts`: a three-round debate
among three configured model identities (claude / gpt / gemini), with
marker-based extraction of structured fields from free-form model output.

Modelling conventions:
* JavaScript strings are `List Char` (`Str`); `String.prototype.indexOf`,
  `substring`, `trim` and `||` on strings are modelled by `indexOf?`,
  `take`/`drop`, `trim` and `jsOr` below.
* Each provider SDK client is a pure function returning `Except Str _`:
  `.error e` models a thrown exception carrying message `e`.  The shapes
  mirror what the route reads from each SDK response: Anthropic's
  `content[0]` text block may be missing (`Option`), OpenAI's
  `choices[0]?.message?.content` may be missing (`Option`), and Google's
  `response.text()` can itself throw (nested `Except`).
* `Promise.all` over a `map` is modelled by the order-preserving `mapAll`:
  the result sequence follows input order regardless of completion order
  (which a deterministic embedding does not observe), and any rejection
  rejects the whole round.
* `console.log` / `console.warn` / `console.error` calls are pure logging
  and are not modelled; JSON serialisation and the `debug` pretty-printing
  flag are transport concerns outside the embedded logic.
-/

/-- JavaScript strings, embedded as lists of characters. -/
abbrev Str := List Char

/-- Whitespace as `String.prototype.trim` removes it (the characters that can
actually occur in this program's strings). -/
def jsWhitespace (c : Char) : Bool :=
  c = ' ' || c = '\n' || c = '\t' || c = '\r' || c = '\x0b' || c = '\x0c'

/-- `s.trim()`: remove leading and trailing whitespace. -/
def trim (s : Str) : Str :=
  ((s.dropWhile jsWhitespace).reverse.dropWhile jsWhitespace).reverse

/-- JS `a || b` on strings: the empty string is falsy, so `b` is chosen
exactly when `a` is empty. -/
def jsOr (a b : Str) : Str := if a = [] then b else a

/-- `s.indexOf(pat)`: the index of the first occurrence of `pat` in `s`
(`none` models `-1`).  As in JS, the empty pattern occurs at index 0. -/
def indexOf? : Str → Str → Option Nat
  | [], pat => if pat = [] then some 0 else none
  | c :: tl, pat =>
    if pat.isPrefixOf (c :: tl) then some 0 else (indexOf? tl pat).map (· + 1)

/-- `xs.join(sep)` on strings. -/
def jsJoin (sep : Str) : List Str → Str
  | [] => []
  | [x] => x
  | x :: xs => x ++ sep ++ jsJoin sep xs

/-! ## Text parsing utilities (route.ts lines 275–314) -/

/-- `extractBetween(text, startMarker, endMarker)`: the substring strictly
between the first occurrence of `startMarker` and the first following
occurrence of `endMarker`, trimmed; everything after `startMarker` when
`endMarker` does not follow; `''` when `startMarker` is absent. -/
def extractBetween (text startMarker endMarker : Str) : Str :=
  match indexOf? text startMarker with
  | none => []
  | some startIdx =>
    let contentStart := startIdx + startMarker.length
    match indexOf? (text.drop contentStart) endMarker with
    | none => trim (text.drop contentStart)
    | some endIdx => trim ((text.drop contentStart).take endIdx)

/-- The closed set of known next-section labels `extractAfter` stops at
(route.ts lines 298–303). -/
def nextMarkers : List Str :=
  ["\n\nRATIONALE:", "\n\nREASONING:", "\n\nFINAL_ANSWER:", "\n\nCRITIQUE:",
   "\n\nUPDATED_FINAL_ANSWER:", "\n\nJUSTIFICATION:", "\n\nANALYSIS:",
   "\n\nUNDERSTANDING:", "\n\nAPPROACH:", "\n\nSOLUTION:", "\n\nVERIFICATION:",
   "\n\nCONFIDENCE:", "\n\nSOLUTIONS_REVIEWED:", "\n\nBREAK_ATTEMPTS:",
   "\n\nBLIND_SPOT_CHECK:"].map String.toList

/-- The `for (const nextMarker of nextMarkers)` loop of `extractAfter`:
starting from `e`, lower the cut index to the first occurrence of each
marker of `ms` in `r` whenever that occurrence is smaller. -/
def nearestIdx (r : Str) (ms : List Str) (e : Nat) : Nat :=
  ms.foldl (fun e m =>
    match indexOf? r m with
    | some i => if i < e then i else e
    | none => e) e

/-- `extractAfter(text, marker)`: text following the first occurrence of
`marker`, trimmed, then cut just before the nearest occurrence of any known
next-section label, and trimmed again; `''` when `marker` is absent.
Note the source trims `restOfText` *before* searching for the labels. -/
def extractAfter (text marker : Str) : Str :=
  match indexOf? text marker with
  | none => []
  | some idx =>
    let contentStart := idx + marker.length
    let restOfText := trim (text.drop contentStart)
    let endIdx := nearestIdx restOfText nextMarkers restOfText.length
    trim (restOfText.take endIdx)

/-- Modelled from the claim's words for C2 (not from the source): the text
following the first occurrence of the marker, up to the nearest following
occurrence of any marker from the closed set of known next-section labels
(or to end-of-text when none follows), trimmed.  Unlike the source's
`extractAfter`, the rest of the text is *not* trimmed before the labels are
searched for. -/
def extractAfterClaim (text marker : Str) : Str :=
  match indexOf? text marker with
  | none => []
  | some idx =>
    let rest := text.drop (idx + marker.length)
    let endIdx := nearestIdx rest nextMarkers rest.length
    trim (rest.take endIdx)

/-! ## Data model (route.ts lines 11–52) -/

/-- `type ModelId = 'claude' | 'gpt' | 'gemini'`. -/
inductive ModelId
  | claude
  | gpt
  | gemini
deriving DecidableEq, Repr

/-- The string a `ModelId` interpolates to in a template literal. -/
def ModelId.name : ModelId → Str
  | .claude => "claude".toList
  | .gpt => "gpt".toList
  | .gemini => "gemini".toList

/-- `provider: 'openai' | 'anthropic' | 'google'`. -/
inductive Provider
  | openai
  | anthropic
  | google
deriving DecidableEq, Repr

structure ModelConfig where
  id : ModelId
  provider : Provider
  modelName : Str
deriving DecidableEq, Repr

structure Round1Answer where
  modelId : ModelId
  rawAnswer : Str
  reasoning : Str
  finalAnswer : Str
deriving DecidableEq, Repr

structure Round2Critique where
  modelId : ModelId
  rawCritique : Str
  critique : Str
  revisedAnswer : Str
deriving DecidableEq, Repr

structure DebateResult where
  question : Str
  round1 : List Round1Answer
  round2 : List Round2Critique
  finalAnswer : Str
  finalRationale : Str
  chosenFrom : List ModelId
deriving DecidableEq, Repr

def CLAUDE_CONFIG : ModelConfig :=
  ⟨.claude, .anthropic, "claude-3-haiku-20240307".toList⟩

def GPT_CONFIG : ModelConfig :=
  ⟨.gpt, .openai, "gpt-3.5-turbo".toList⟩

def GEMINI_CONFIG : ModelConfig :=
  ⟨.gemini, .google, "gemini-2.5-flash".toList⟩

/-- The fixed, process-wide agent configuration (route.ts lines 46–50). -/
def MODELS : List ModelConfig := [CLAUDE_CONFIG, GPT_CONFIG, GEMINI_CONFIG]

/-- `const ARBITER_MODEL = MODELS[0]` — Claude is the arbiter. -/
def ARBITER_MODEL : ModelConfig := CLAUDE_CONFIG

/-! ## Prompt templates (route.ts lines 58–269) -/

/-- The fixed R1 system instruction (source: route.ts). -/
def R1_SYSTEM_PROMPT : Str :=
  ("Solve this task. Quality and correctness matter more than speed.\n\nSTEP 1 - UNDERSTAND BEFORE STARTING:\n• Restate what's being asked in your own words\n• If examples/test cases exist: work through Example 1 BY HAND first and explain why it produces that output\n• If no examples exist: create a simple test case yourself to verify your understanding\n• What makes this tricky? What could go wrong?\n\nSTEP 2 - PLAN, THEN EXECUTE:\nOutline your approach briefly:\n• For code: algorithm, data structures, time complexity\n• For math: technique, formulas, key steps\n• For writing: thesis/main argument and 3-4 supporting points\n• For analysis: framework, criteria, structure\n\nThen execute fully with clear reasoning shown.\n\nSTEP 3 - VERIFY YOUR WORK:\nYou MUST check your answer before finalizing.\n\nFor CODE:\n→ Trace through Example 1 step-by-step, showing variable values at each line\n→ Does your output match expected? If NO: stop, find the bug, fix it, re-verify\n→ CRITICAL: If you sorted any array, did you keep related data paired with it?\n\nFor MATH:\n→ Redo key calculations to double-check arithmetic\n→ Do units/dimensions make sense? Is the magnitude reasonable?\n→ If data was reordered, did you maintain necessary pairings?\n\nFor WRITING/ANALYSIS:\n→ Read the first sentence of each paragraph in sequence — do they tell a logical story?\n→ Does every paragraph support your main thesis/argument?\n→ Is every claim backed by evidence, example, or reasoning?\n\nFor ALL TASKS:\n→ Did you actually answer what was asked, or did you drift?\n\nSTEP 4 - STRESS TEST:\nAssume your answer has a flaw. Try to find it:\n• What's the weakest part?\n• What would a critic attack?\n• For code/math: test an edge case (n=0, n=1, negative values, huge values)\n• For writing: what would someone who disagrees say? Is it addressed?\n\nIf you find a problem → fix it before finalizing.\n\nOUTPUT FORMAT:\nUNDERSTANDING: [Task restated + Example 1 traced by hand (or your own test case) + what makes it tricky]\nAPPROACH: [Your plan]\nSOLUTION: [Complete answer with reasoning shown]\nVERIFICATION: [What you checked + trace/evidence + results]\nFINAL_ANSWER: [Your final answer]\nCONFIDENCE: [High / Medium / Low — with brief explanation of uncertainties]").toList

/-- The fixed R2 system instruction (source: route.ts). -/
def R2_SYSTEM_PROMPT : Str :=
  ("You are reviewing solutions for correctness. You will see:\n• The original task\n• Your Round 1 answer\n• Other models' Round 1 answers (if available — some may have failed)\n\nYOUR GOAL: Find the correct answer. Do not assume any solution is right — including your own.\n\n⚠️ CRITICAL WARNING: Agreement does NOT mean correctness. If all solutions agree, be EXTRA skeptical — they might all share the same blind spot. This is common and dangerous.\n\nSTEP 1 - HANDLE MISSING/FAILED SOLUTIONS:\nIf any model failed to produce an answer (API error, refusal, \"no answer provided\"), note it and ignore that model. Work with what you have.\n\nSTEP 2 - TEST EACH SOLUTION:\nFor each available solution, verify it independently. Show your work.\n\nFor CODE:\n→ Trace through Example 1 line by line, showing variable values\n→ Does output match expected? Mark: ✓ PASS or ✗ FAIL\n→ CRITICAL: If any array was sorted, did related data stay paired with it?\n\nFor MATH:\n→ Redo the key calculations yourself\n→ Does your result match theirs? Mark: ✓ PASS or ✗ FAIL\n→ Check: If data was reordered, are pairings preserved?\n\nFor WRITING/ANALYSIS:\n→ State the thesis/main argument in one sentence\n→ Does every paragraph support it? Is each claim evidenced?\n→ Mark: ✓ SOUND or ✗ FLAWED (state why)\n\nFor ALL:\n→ Does it actually answer what was asked?\n\nSTEP 3 - TRY TO BREAK EACH SOLUTION:\nEven if a solution passed Step 2, actively try to find a flaw:\n• What edge case might fail? (n=0, n=1, negatives, huge values)\n• What's the weakest assumption or argument?\n• Can you construct a specific input or counterargument that breaks it?\n\nSTEP 4 - CHECK FOR SHARED BLIND SPOTS:\nIf solutions AGREE:\n→ This is suspicious. Ask: \"What could we ALL be getting wrong?\"\n→ Re-examine the shared core logic independently\n→ Verify shared assumptions explicitly — don't just accept them\n\nIf solutions DISAGREE:\n→ Identify the exact point of disagreement\n→ Test that specific point to determine who's right\n\nSTEP 5 - REVIEW CONFIDENCE SIGNALS:\nLook at the confidence levels from Round 1:\n• If one model said \"High confidence\" and another said \"Low confidence,\" weigh the high-confidence answer more — but still verify it\n• If a model expressed specific uncertainties, check if those concerns are valid\n\nSTEP 6 - DELIVER VERDICT:\nChoose one:\na) One solution is clearly correct → select it, explain why\nb) Multiple are correct → pick the best reasoned/cleanest\nc) All are flawed → identify the error and provide a corrected answer with work shown\nd) Genuinely uncertain → state what's unresolved\n\nOUTPUT FORMAT:\nSOLUTIONS_REVIEWED: [List which models you're evaluating, note any that failed/were ignored]\nVERIFICATION: [For each solution: your trace/analysis + ✓/✗ verdict with reasoning]\nBREAK_ATTEMPTS: [Edge cases, counterarguments, and adversarial inputs you tested]\nBLIND_SPOT_CHECK: [If solutions agreed: what might they all be missing? What did you verify? If they disagreed: who's right on the disputed point?]\nCRITIQUE: [Summary: what's right, what's wrong, who you trust and why]\nUPDATED_FINAL_ANSWER: [The correct answer — either selected or corrected]\nCONFIDENCE: [High / Medium / Low — and what remains uncertain]").toList

/-- The fixed R3 system instruction (source: route.ts). -/
def R3_SYSTEM_PROMPT : Str :=
  ("You are the final judge. Your ruling is final. You will see:\n• The original task\n• All Round 1 solutions\n• All Round 2 critiques and revised answers\n\nYOUR MISSION: Deliver the correct answer. No one reviews your work — get it right.\n\n⚠️ JUDGING PRINCIPLES:\n\n1. VERIFICATION BEATS VOTING\n   If 3 models agree but your verification shows they're wrong, they're wrong.\n   Do not be swayed by consensus. Trust your own verification.\n\n2. AGREEMENT IS STILL SUSPICIOUS\n   If everyone converged on the same answer after Round 2, they may still share a blind spot.\n   Verify the consensus answer just as rigorously as disputed ones.\n\n3. JUDGE FLIP-FLOPPERS CAREFULLY\n   If a model changed their answer R1→R2, examine why:\n   • GOOD change: A real bug/flaw was identified with clear reasoning → trust the new answer\n   • BAD change: Model just agreed with others without real justification → this is sycophancy, discount this model's input\n\n4. IGNORE NON-ANSWERS\n   If any model failed to produce an answer (API error, refusal, etc.), disregard it entirely.\n\n5. USE CONFIDENCE SIGNALS\n   Pay attention to confidence levels from earlier rounds. A model that said \"Low confidence\" and was later proven wrong is less surprising than one that said \"High confidence\" and failed.\n\n6. YOU MUST VERIFY BEFORE RULING\n   Never output a final answer you haven't personally verified.\n\nSTEP 1 - SURVEY:\nQuickly assess:\n• How many distinct candidate answers exist?\n• Who agrees with whom?\n• Who changed their answer R1→R2? Was it justified with real reasoning?\n• What confidence levels were claimed?\n• Any models that failed to answer? (Ignore them)\n\nSTEP 2 - VERIFY EACH CANDIDATE:\nFor each distinct proposed answer, test it yourself:\n\nFor CODE:\n→ Trace Example 1 step-by-step, showing variable values at each line\n→ Compare your output to expected output\n→ CRITICAL: If any arrays were sorted, verify related data stayed paired\n→ Test one edge case (n=0, n=1, negatives, large values)\n\nFor MATH:\n→ Redo the key calculations yourself\n→ Check magnitudes, signs, units\n→ If data was reordered at any point, verify pairings preserved\n\nFor WRITING/ANALYSIS:\n→ State the core thesis in one sentence\n→ Does each paragraph support it? Is each claim backed by evidence?\n→ What's the strongest counterargument? Is it addressed?\n\nFor ALL TASKS:\n→ Does this actually answer what was asked?\n\nMark each candidate: ✓ VERIFIED or ✗ FAILED (state specific reason)\n\nSTEP 3 - RULE:\nBased on your verification:\n• One candidate verified, others failed → Select the verified one\n• Multiple candidates verified → Select the best-reasoned or most complete\n• ALL candidates failed → Construct the correct answer yourself with full work shown\n• Genuinely uncertain → State what's unresolved, give your best judgment with caveats\n\nSTEP 4 - FINAL CHECK:\nBefore submitting, verify your final answer one more time:\n→ Code: Trace Example 1. Does output match expected?\n→ Math: Redo the key calculation. Does it hold?\n→ Writing: Read paragraph first-sentences in sequence. Is the thesis supported?\n\nIf this check fails → return to Step 3 and fix.\n\nOUTPUT FORMAT:\nANALYSIS:\n[Summary: What candidates exist, who agreed/disagreed, who flipped (and whether justified), your verification result for each candidate with ✓/✗ and reasoning]\n\nFINAL_ANSWER:\n[The complete, correct answer]\n\nJUSTIFICATION:\n[Why this answer is correct — include your verification trace as proof. Why alternatives were rejected. Your confidence level (High/Medium/Low) and any remaining uncertainties.]").toList
/-! ## LLM client abstraction (route.ts lines 320–418) -/

/-- The per-session SDK client bundle.  Each field models one provider call:
* `anthropic model content maxTokens` — `messages.create` with the single
  user message `content`; `.ok (some t)` when `content[0]` is a text block
  with text `t`, `.ok none` otherwise (the route then uses `''`).
* `openai model system user maxTokens` — `chat.completions.create`;
  `.ok none` when `choices[0]?.message?.content` is missing (the route then
  uses `''` via `|| ''`).
* `google model system user maxTokens` — `getGenerativeModel` +
  `generateContent`; the outer `Except` is `generateContent` throwing, the
  inner one is `response.text()` throwing. -/
structure Clients where
  anthropic : Str → Str → Nat → Except Str (Option Str)
  openai : Str → Str → Str → Nat → Except Str (Option Str)
  google : Str → Str → Str → Nat → Except Str (Except Str Str)

/-- The fallback payload returned when Gemini yields empty/filtered text or
`response.text()` throws (route.ts lines 394 and 399). -/
def GEMINI_EMPTY_FALLBACK : Str :=
  ("REASONING: Unable to generate response due to safety filters or API limitations.\n\nFINAL_ANSWER: No answer provided\n\nCRITIQUE: Unable to provide critique due to API error.\n\nUPDATED_FINAL_ANSWER: No answer provided").toList

/-- The fallback payload returned when the Gemini call throws outright
(route.ts line 413). -/
def GEMINI_ERROR_FALLBACK : Str :=
  ("REASONING: API call failed.\n\nFINAL_ANSWER: No answer provided\n\nCRITIQUE: Unable to provide critique due to API error.\n\nUPDATED_FINAL_ANSWER: No answer provided").toList

/-- `getMaxTokensForProvider`: clamp the requested budget to the per-provider
ceiling (`limits[provider] || 4096`; every provider is in the record, so the
`|| 4096` default is unreachable). -/
def getMaxTokensForProvider (provider : Provider) (requested : Nat) : Nat :=
  match provider with
  | .openai => min requested 4096
  | .anthropic => min requested 4096
  | .google => min requested 8192

/-- `callLLM(config, systemPrompt, userPrompt, clients, maxTokens = 8192)`.
Anthropic and OpenAI exceptions are re-thrown by the outer `catch`
(`.error`); a Google exception is absorbed into `GEMINI_ERROR_FALLBACK`,
and empty/filtered Gemini text into `GEMINI_EMPTY_FALLBACK`.  The
`default:` branch of the provider switch is unreachable over the closed
`Provider` type. -/
def callLLM (config : ModelConfig) (systemPrompt userPrompt : Str)
    (clients : Clients) (maxTokens : Nat := 8192) : Except Str Str :=
  let cappedMaxTokens := getMaxTokensForProvider config.provider maxTokens
  match config.provider with
  | .anthropic =>
    match clients.anthropic config.modelName
        (systemPrompt ++ ("\n\n").toList ++ userPrompt) cappedMaxTokens with
    | .error e => .error e
    | .ok (some t) => .ok t
    | .ok none => .ok []
  | .openai =>
    match clients.openai config.modelName systemPrompt userPrompt cappedMaxTokens with
    | .error e => .error e
    | .ok (some t) => .ok t
    | .ok none => .ok []
  | .google =>
    match clients.google config.modelName systemPrompt userPrompt cappedMaxTokens with
    | .error _ => .ok GEMINI_ERROR_FALLBACK
    | .ok (.error _) => .ok GEMINI_EMPTY_FALLBACK
    | .ok (.ok t) => if trim t = [] then .ok GEMINI_EMPTY_FALLBACK else .ok t

/-! ## Rounds (route.ts lines 424–601) -/

/-- `Promise.all(list.map(f))`: the result list preserves the order of
`list` (not completion order); one rejection rejects the whole batch. -/
def mapAll {α β : Type} (f : α → Except Str β) : List α → Except Str (List β)
  | [] => .ok []
  | a :: as =>
    match f a with
    | .error e => .error e
    | .ok b =>
      match mapAll f as with
      | .error e => .error e
      | .ok bs => .ok (b :: bs)

/-- The extraction start markers the three rounds pass to `extractBetween` /
`extractAfter` (route.ts lines 438–439, 508–509, 585–589). -/
def mREASONING : Str := "REASONING:".toList
def mFINAL_ANSWER : Str := "FINAL_ANSWER:".toList
def mCRITIQUE : Str := "CRITIQUE:".toList
def mUPDATED_FINAL_ANSWER : Str := "UPDATED_FINAL_ANSWER:".toList
def mJUSTIFICATION : Str := "JUSTIFICATION:".toList
def mRATIONALE : Str := "RATIONALE:".toList

/-- Every structured marker some round's extraction code searches for. -/
def roundExtractionMarkers : List Str :=
  [mREASONING, mFINAL_ANSWER, mCRITIQUE, mUPDATED_FINAL_ANSWER,
   mJUSTIFICATION, mRATIONALE]

/-- The sentinel substituted when Round 1 `FINAL_ANSWER` extraction yields
nothing. -/
def NO_ANSWER_SENTINEL : Str := "No answer provided".toList

/-- `runRound1`: every configured model concurrently answers the question;
results keep `MODELS` order. -/
def runRound1 (question : Str) (clients : Clients) :
    Except Str (List Round1Answer) :=
  let userPrompt := ("QUESTION:\n").toList ++ question
  mapAll (fun model =>
    match callLLM model R1_SYSTEM_PROMPT userPrompt clients with
    | .error e => .error e
    | .ok responseText =>
      let reasoning := extractBetween responseText mREASONING mFINAL_ANSWER
      let finalAnswer := extractAfter responseText mFINAL_ANSWER
      .ok { modelId := model.id
            rawAnswer := responseText
            reasoning := jsOr reasoning responseText
            finalAnswer := jsOr finalAnswer NO_ANSWER_SENTINEL }) MODELS

/-- One `ANSWER_FROM_<id>` block of the Round 2 "others" section. -/
def answerBlock (o : Round1Answer) : Str :=
  ("ANSWER_FROM_").toList ++ o.modelId.name ++ (":\nREASONING:\n").toList
    ++ o.reasoning ++ ("\n\nFINAL_ANSWER:\n").toList ++ o.finalAnswer

/-- `buildRound2UserPrompt(question, self, others)`. -/
def buildRound2UserPrompt (question : Str) (self : Round1Answer)
    (others : List Round1Answer) : Str :=
  let othersText := jsJoin ("\n\n").toList (others.map answerBlock)
  ("QUESTION:\n").toList ++ question ++ ("\n\nYOUR_PREVIOUS_ANSWER (").toList
    ++ self.modelId.name ++ ("):\nREASONING:\n").toList ++ self.reasoning
    ++ ("\n\nFINAL_ANSWER:\n").toList ++ self.finalAnswer
    ++ ("\n\n").toList ++ othersText

/-- `MODELS.find((m) => m.id === self.modelId)!` — the lookup always
succeeds because every `Round1Answer.modelId` comes from a `MODELS` entry,
so the `getD` default is unreachable. -/
def findModelConfig (id : ModelId) : ModelConfig :=
  (MODELS.find? (fun m => m.id == id)).getD CLAUDE_CONFIG

/-- `runRound2`: each Round 1 participant critiques all answers, seeing
every *other* agent's answer in the "others" section, via its own model. -/
def runRound2 (question : Str) (round1 : List Round1Answer)
    (clients : Clients) : Except Str (List Round2Critique) :=
  mapAll (fun self =>
    let others := round1.filter (fun r => r.modelId != self.modelId)
    let userPrompt := buildRound2UserPrompt question self others
    let modelConfig := findModelConfig self.modelId
    match callLLM modelConfig R2_SYSTEM_PROMPT userPrompt clients with
    | .error e => .error e
    | .ok responseText =>
      let critique := extractBetween responseText mCRITIQUE mUPDATED_FINAL_ANSWER
      let revisedAnswer := extractAfter responseText mUPDATED_FINAL_ANSWER
      .ok { modelId := self.modelId
            rawCritique := responseText
            critique := jsOr critique responseText
            revisedAnswer := jsOr revisedAnswer self.finalAnswer }) round1

/-- `buildArbiterPrompt(question, round1, round2)`: the `for` loops append
one block per answer/critique, modelled as flattened maps. -/
def buildArbiterPrompt (question : Str) (round1 : List Round1Answer)
    (round2 : List Round2Critique) : Str :=
  ("QUESTION:\n").toList ++ question ++ ("\n\nROUND_1_ANSWERS:\n").toList
  ++ (round1.map (fun r1 =>
        ("\nMODEL: ").toList ++ r1.modelId.name ++ ("\nFINAL_ANSWER:\n").toList
          ++ r1.finalAnswer ++ ("\nREASONING:\n").toList ++ r1.reasoning
          ++ ("\n").toList)).flatten
  ++ ("\n\nROUND_2_UPDATED_ANSWERS:\n").toList
  ++ (round2.map (fun r2 =>
        ("\nMODEL: ").toList ++ r2.modelId.name
          ++ ("\nUPDATED_FINAL_ANSWER:\n").toList ++ r2.revisedAnswer
          ++ ("\nCRITIQUE:\n").toList ++ r2.critique ++ ("\n").toList)).flatten

/-- The sentinel substituted when Round 3 `FINAL_ANSWER` extraction yields
nothing. -/
def UNABLE_SENTINEL : Str := "Unable to determine final answer".toList

/-- `runRound3`: one arbitration call against the fixed arbiter, with an
explicit `maxTokens` of 8192; `JUSTIFICATION` is tried before `RATIONALE`
for the rationale, with the raw response as last resort. -/
def runRound3 (question : Str) (round1 : List Round1Answer)
    (round2 : List Round2Critique) (clients : Clients) :
    Except Str (Str × Str) :=
  let arbiterPrompt := buildArbiterPrompt question round1 round2
  match callLLM ARBITER_MODEL R3_SYSTEM_PROMPT arbiterPrompt clients 8192 with
  | .error e => .error e
  | .ok responseText =>
    let finalAnswer := extractAfter responseText mFINAL_ANSWER
    let rationale := jsOr (extractAfter responseText mJUSTIFICATION)
      (extractAfter responseText mRATIONALE)
    .ok (jsOr finalAnswer UNABLE_SENTINEL, jsOr rationale responseText)

/-! ## API handler (route.ts lines 607–667) -/

/-- The `question` field of the parsed request body: absent (or null /
undefined), present but not a string, or a string. -/
inductive QuestionField
  | missing
  | notString
  | str (s : Str)
deriving DecidableEq

/-- The JSON-serialisable response bodies the handler can produce. -/
inductive ApiBody
  | result (r : DebateResult)
  | clientError (error : Str)
  | serverError (error message : Str)
deriving DecidableEq

structure ApiResponse where
  status : Nat
  body : ApiBody
deriving DecidableEq

/-- The three rounds run strictly in sequence, then the `DebateResult` is
assembled (the body of `POST`'s `try` after validation). -/
def runDebate (question : Str) (clients : Clients) : Except Str DebateResult :=
  match runRound1 question clients with
  | .error e => .error e
  | .ok round1 =>
    match runRound2 question round1 clients with
    | .error e => .error e
    | .ok round2 =>
      match runRound3 question round1 round2 clients with
      | .error e => .error e
      | .ok (finalAnswer, rationale) =>
        .ok { question := question
              round1 := round1
              round2 := round2
              finalAnswer := finalAnswer
              finalRationale := rationale
              chosenFrom := round2.map (fun r => r.modelId) }

/-- `POST`: validation (`!question || typeof question !== 'string'` rejects
a missing field, a non-string and the empty string with 400), then the
debate; a thrown error is caught and answered with 500
`{ error, message }` (the caught error's message is the `.error` payload). -/
def POST (question : QuestionField) (clients : Clients) : ApiResponse :=
  match question with
  | .str q =>
    if q = [] then ⟨400, .clientError ("Missing or invalid question").toList⟩
    else
      match runDebate q clients with
      | .ok result => ⟨200, .result result⟩
      | .error e => ⟨500, .serverError ("Internal server error").toList e⟩
  | _ => ⟨400, .clientError ("Missing or invalid question").toList⟩

/-! ## Concrete scenarios used by witnesses and counterexamples -/

/-- A well-formed happy-path response text. -/
def happyText : Str := ("REASONING: Because six times seven is forty-two.\n\nFINAL_ANSWER: 42").toList

/-- Clients in which every provider returns `happyText`. -/
def happyClients : Clients :=
  { anthropic := fun _ _ _ => .ok (some happyText)
    openai := fun _ _ _ _ => .ok (some happyText)
    google := fun _ _ _ _ => .ok (.ok happyText) }

def wQuestion : Str := ("What is 6 times 7?").toList

def wRound1 : List Round1Answer := (runRound1 wQuestion happyClients).toOption.getD []

def wRound2 : List Round2Critique := (runRound2 wQuestion wRound1 happyClients).toOption.getD []

/-- The soft-failure condition the Gemini branch of `callLLM` absorbs: the
call throws, `response.text()` throws, or the returned text is
empty/whitespace (safety-filtered or truncated to nothing). -/
def googleMisbehaves : Except Str (Except Str Str) → Prop
  | .error _ => True
  | .ok (.error _) => True
  | .ok (.ok t) => trim t = []

/-- Clients whose Gemini call always throws while the other providers
return `happyText`. -/
def geminiFailClients : Clients :=
  { anthropic := fun _ _ _ => .ok (some happyText)
    openai := fun _ _ _ _ => .ok (some happyText)
    google := fun _ _ _ _ => .error ("network error").toList }

/-- The first entry of the happy-path Round 1 results (used to instantiate
the Round 2 "others" claim at a concrete agent). -/
def wSelf : Round1Answer := wRound1.headD ⟨.claude, [], [], []⟩

/-- Clients for the C5 counterexample: Gemini throws during Round 1 (the
Round 1 system instruction starts with an S) and returns a response
*without* the `UPDATED_FINAL_ANSWER:` marker during Round 2; the other
providers return `happyText`. -/
def c5Clients : Clients :=
  { anthropic := fun _ _ _ => .ok (some happyText)
    openai := fun _ _ _ _ => .ok (some happyText)
    google := fun _ sys _ _ =>
      if sys.headD ' ' = 'S' then .error ("boom").toList
      else .ok (.ok ("hello").toList) }

def c5Round1 : List Round1Answer := (runRound1 wQuestion c5Clients).toOption.getD []

def c5Round2 : List Round2Critique :=
  (runRound2 wQuestion c5Round1 c5Clients).toOption.getD []

def defaultCrit : Round2Critique := ⟨.claude, [], [], []⟩

/-- Clients for the C6 counterexample: the Anthropic response's first
content block is not a text block, so the route's response text is `''`. -/
def c6Clients : Clients :=
  { anthropic := fun _ _ _ => .ok none
    openai := fun _ _ _ _ => .ok (some happyText)
    google := fun _ _ _ _ => .ok (.ok happyText) }

def c6Round1 : List Round1Answer := (runRound1 wQuestion c6Clients).toOption.getD []

def defaultAns : Round1Answer := ⟨.claude, [], [], []⟩

/-- Clients for the C8 witness: the Anthropic call (a hard-fail provider)
always throws. -/
def c8Clients : Clients :=
  { anthropic := fun _ _ _ => .error ("boom").toList
    openai := fun _ _ _ _ => .ok (some happyText)
    google := fun _ _ _ _ => .ok (.ok happyText) }

/-- Clients for the C10 counterexample: the arbiter (Anthropic) responds
with a non-text content block, so its raw response text is `''`. -/
def c10Clients : Clients :=
  { anthropic := fun _ _ _ => .ok none
    openai := fun _ _ _ _ => .ok (some happyText)
    google := fun _ _ _ _ => .ok (.ok happyText) }

/-- The `DebateResult` the C10 counterexample run produces. -/
def c10Result : DebateResult :=
  match POST (.str wQuestion) c10Clients with
  | ⟨_, .result d⟩ => d
  | _ => ⟨[], [], [], [], [], []⟩

/-! ## Basic lemmas: `indexOf?` -/

theorem indexOf?_none_iff (s pat : Str) : indexOf? s pat = none ↔ ¬ pat <:+: s := by
  induction s with
  | nil => by_cases hp : pat = [] <;> simp [indexOf?, hp]
  | cons c tl ih =>
    simp only [indexOf?]
    cases hp : pat.isPrefixOf (c :: tl) with
    | true =>
      have hpre : pat <+: c :: tl := List.isPrefixOf_iff_prefix.mp hp
      simp [hpre.isInfix]
    | false =>
      have hpre : ¬ pat <+: c :: tl := by
        rw [← List.isPrefixOf_iff_prefix, hp]; simp
      simp only [Bool.false_eq_true, if_false, Option.map_eq_none', ih]
      constructor
      · intro h h2
        rcases List.infix_cons_iff.mp h2 with h3 | h3
        · exact hpre h3
        · exact h h3
      · intro h h2
        exact h (List.infix_cons_iff.mpr (.inr h2))

theorem indexOf?_some_isPrefix {s pat : Str} {i : Nat}
    (h : indexOf? s pat = some i) : pat <+: s.drop i := by
  induction s generalizing i with
  | nil =>
    by_cases hp : pat = [] <;> simp [indexOf?, hp] at h
    · subst h; simp [hp]
  | cons c tl ih =>
    simp only [indexOf?] at h
    cases hp : pat.isPrefixOf (c :: tl) with
    | true =>
      rw [hp, if_pos rfl] at h
      cases h
      simpa using List.isPrefixOf_iff_prefix.mp hp
    | false =>
      rw [hp] at h
      simp only [Bool.false_eq_true, if_false, Option.map_eq_some'] at h
      obtain ⟨j, hj, rfl⟩ := h
      simpa using ih hj

theorem indexOf?_some_minimal {s pat : Str} {i : Nat}
    (h : indexOf? s pat = some i) : ∀ j < i, ¬ pat <+: s.drop j := by
  induction s generalizing i with
  | nil =>
    by_cases hp : pat = [] <;> simp [indexOf?, hp] at h
    · subst h; omega
  | cons c tl ih =>
    simp only [indexOf?] at h
    cases hp : pat.isPrefixOf (c :: tl) with
    | true =>
      rw [hp, if_pos rfl] at h
      cases h
      omega
    | false =>
      rw [hp] at h
      simp only [Bool.false_eq_true, if_false, Option.map_eq_some'] at h
      obtain ⟨k, hk, rfl⟩ := h
      intro j hj
      match j with
      | 0 =>
        have hpre : ¬ pat <+: c :: tl := by
          rw [← List.isPrefixOf_iff_prefix, hp]; simp
        simpa using hpre
      | j + 1 =>
        simpa using ih hk j (by omega)

/-- An occurrence anywhere bounds the first occurrence. -/
theorem indexOf?_le_of_prefix_drop {s pat : Str} {j : Nat}
    (hj : pat <+: s.drop j) : ∃ i, indexOf? s pat = some i ∧ i ≤ j := by
  have hinf : pat <:+: s := hj.isInfix.trans (s.drop_suffix j).isInfix
  rcases he : indexOf? s pat with _ | i
  · exact absurd hinf ((indexOf?_none_iff s pat).mp he)
  · refine ⟨i, rfl, ?_⟩
    by_contra hlt
    exact indexOf?_some_minimal he j (by omega) hj

/-! ## Basic lemmas: `trim` -/

theorem dropWhile_idem (p : Char → Bool) (s : Str) :
    (s.dropWhile p).dropWhile p = s.dropWhile p := by
  induction s with
  | nil => simp
  | cons c tl ih =>
    by_cases h : p c <;> simp [List.dropWhile_cons, h, ih]

theorem dropWhile_eq_self_of_isPrefix {p : Char → Bool} {s w : Str}
    (hs : s.dropWhile p = s) (hw : w <+: s) : w.dropWhile p = w := by
  match w with
  | [] => simp
  | c :: tl =>
    obtain ⟨rest, rfl⟩ := hw
    cases hc : p c with
    | true =>
      exfalso
      simp only [List.cons_append, List.dropWhile_cons, hc, if_pos] at hs
      have h1 : (List.dropWhile p (tl ++ rest)).length ≤ (tl ++ rest).length :=
        (List.dropWhile_suffix p).sublist.length_le
      have h2 := congrArg List.length hs
      simp only [List.length_cons] at h2
      omega
    | false => simp [List.dropWhile_cons, hc]

theorem trim_dropWhile (s : Str) : (trim s).dropWhile jsWhitespace = trim s := by
  have hx : (s.dropWhile jsWhitespace).dropWhile jsWhitespace
      = s.dropWhile jsWhitespace := dropWhile_idem _ _
  have hsuf : ((s.dropWhile jsWhitespace).reverse.dropWhile jsWhitespace)
      <:+ (s.dropWhile jsWhitespace).reverse := List.dropWhile_suffix _
  have hpre : trim s <+: s.dropWhile jsWhitespace := by
    have := List.reverse_prefix.mpr hsuf
    simpa [trim] using this
  exact dropWhile_eq_self_of_isPrefix hx hpre

theorem trim_reverse_dropWhile (s : Str) :
    (trim s).reverse.dropWhile jsWhitespace = (trim s).reverse := by
  simp only [trim, List.reverse_reverse]
  exact dropWhile_idem _ _

theorem trim_trim (s : Str) : trim (trim s) = trim s := by
  conv_lhs => rw [trim, trim_dropWhile, trim_reverse_dropWhile]
  simp

/-! ## Basic lemmas: `nearestIdx` (the extractAfter cut loop) -/

theorem nearestIdx_cons (r m : Str) (ms : List Str) (e : Nat) :
    nearestIdx r (m :: ms) e
      = nearestIdx r ms
          (match indexOf? r m with
           | some i => if i < e then i else e
           | none => e) := by
  simp [nearestIdx]

theorem nearestIdx_le (r : Str) (ms : List Str) (e : Nat) :
    nearestIdx r ms e ≤ e := by
  induction ms generalizing e with
  | nil => simp [nearestIdx]
  | cons m ms ih =>
    rw [nearestIdx_cons]
    rcases h : indexOf? r m with _ | i
    · exact ih e
    · by_cases hi : i < e
      · simp only [hi, if_pos]
        exact le_trans (ih i) (by omega)
      · simp only [hi, if_neg, ite_false]
        exact ih e

theorem nearestIdx_le_some {r m : Str} {ms : List Str} {i : Nat}
    (hm : m ∈ ms) (hi : indexOf? r m = some i) (e : Nat) :
    nearestIdx r ms e ≤ i := by
  induction ms generalizing e with
  | nil => cases hm
  | cons m' ms ih =>
    rw [nearestIdx_cons]
    rcases List.mem_cons.mp hm with rfl | hm'
    · rw [hi]
      by_cases hlt : i < e
      · simp only [hlt, if_pos]
        exact nearestIdx_le r ms i
      · simp only [hlt, if_neg, ite_false]
        exact le_trans (nearestIdx_le r ms e) (by omega)
    · exact ih hm' _

theorem nearestIdx_cases (r : Str) (ms : List Str) (e : Nat) :
    nearestIdx r ms e = e
      ∨ ∃ m ∈ ms, indexOf? r m = some (nearestIdx r ms e) := by
  induction ms generalizing e with
  | nil => exact .inl rfl
  | cons m ms ih =>
    rw [nearestIdx_cons]
    rcases h : indexOf? r m with _ | i
    · rcases ih e with h1 | ⟨m', hm', h'⟩
      · exact .inl h1
      · exact .inr ⟨m', List.mem_cons_of_mem _ hm', h'⟩
    · by_cases hlt : i < e
      · simp only [hlt, if_pos]
        rcases ih i with h1 | ⟨m', hm', h'⟩
        · exact .inr ⟨m, List.mem_cons_self _ _, by rw [h, h1]⟩
        · exact .inr ⟨m', List.mem_cons_of_mem _ hm', h'⟩
      · simp only [hlt, if_neg, ite_false]
        rcases ih e with h1 | ⟨m', hm', h'⟩
        · exact .inl h1
        · exact .inr ⟨m', List.mem_cons_of_mem _ hm', h'⟩

theorem nearestIdx_all_none {r : Str} {ms : List Str}
    (h : ∀ m ∈ ms, indexOf? r m = none) (e : Nat) : nearestIdx r ms e = e := by
  induction ms generalizing e with
  | nil => rfl
  | cons m ms ih =>
    rw [nearestIdx_cons, h m (List.mem_cons_self _ _)]
    exact ih (fun m' hm' => h m' (List.mem_cons_of_mem _ hm')) e

/-! ## Basic lemmas: `mapAll` (Promise.all) -/

theorem mapAll_ok_forall₂ {α β : Type} {f : α → Except Str β} :
    ∀ {l : List α} {ys : List β}, mapAll f l = .ok ys →
      List.Forall₂ (fun a b => f a = .ok b) l ys := by
  intro l
  induction l with
  | nil =>
    intro ys h
    simp only [mapAll, Except.ok.injEq] at h
    subst h
    exact .nil
  | cons a as ih =>
    intro ys h
    simp only [mapAll] at h
    rcases hf : f a with e | b <;> rw [hf] at h
    · cases h
    · rcases hr : mapAll f as with e | bs <;> rw [hr] at h
      · cases h
      · simp only [Except.ok.injEq] at h
        subst h
        exact .cons hf (ih hr)

theorem forall₂_map_eq {α β γ : Type} {R : α → β → Prop} {l : List α}
    {ys : List β} (h : List.Forall₂ R l ys) (proj : β → γ) (g : α → γ)
    (hR : ∀ a b, R a b → proj b = g a) : ys.map proj = l.map g := by
  induction h with
  | nil => rfl
  | cons hab _ ih => simp [hR _ _ hab, ih]

/-! ## Round-level characterisations -/

theorem runRound1_forall₂ {q : Str} {clients : Clients} {r1 : List Round1Answer}
    (h : runRound1 q clients = .ok r1) :
    List.Forall₂ (fun (model : ModelConfig) (a : Round1Answer) =>
      ∃ t, callLLM model R1_SYSTEM_PROMPT (("QUESTION:\n").toList ++ q) clients = .ok t ∧
        a = { modelId := model.id
              rawAnswer := t
              reasoning := jsOr (extractBetween t mREASONING mFINAL_ANSWER) t
              finalAnswer := jsOr (extractAfter t mFINAL_ANSWER) NO_ANSWER_SENTINEL })
      MODELS r1 := by
  simp only [runRound1] at h
  refine (mapAll_ok_forall₂ h).imp ?_
  intro model a hfa
  rcases hc : callLLM model R1_SYSTEM_PROMPT (("QUESTION:\n").toList ++ q) clients
      with e | t <;> rw [hc] at hfa
  · cases hfa
  · simp only [Except.ok.injEq] at hfa
    exact ⟨t, rfl, hfa.symm⟩

theorem runRound2_forall₂ {q : Str} {r1 : List Round1Answer} {clients : Clients}
    {r2 : List Round2Critique} (h : runRound2 q r1 clients = .ok r2) :
    List.Forall₂ (fun (self : Round1Answer) (crit : Round2Critique) =>
      ∃ t, callLLM (findModelConfig self.modelId) R2_SYSTEM_PROMPT
          (buildRound2UserPrompt q self
            (r1.filter (fun r => r.modelId != self.modelId))) clients = .ok t ∧
        crit = { modelId := self.modelId
                 rawCritique := t
                 critique := jsOr (extractBetween t mCRITIQUE mUPDATED_FINAL_ANSWER) t
                 revisedAnswer := jsOr (extractAfter t mUPDATED_FINAL_ANSWER) self.finalAnswer })
      r1 r2 := by
  simp only [runRound2] at h
  refine (mapAll_ok_forall₂ h).imp ?_
  intro self crit hfa
  rcases hc : callLLM (findModelConfig self.modelId) R2_SYSTEM_PROMPT
      (buildRound2UserPrompt q self
        (r1.filter (fun r => r.modelId != self.modelId))) clients
      with e | t <;> rw [hc] at hfa
  · cases hfa
  · simp only [Except.ok.injEq] at hfa
    exact ⟨t, rfl, hfa.symm⟩

theorem runRound1_modelIds {q : Str} {clients : Clients} {r1 : List Round1Answer}
    (h : runRound1 q clients = .ok r1) :
    r1.map (fun a => a.modelId) = MODELS.map (fun m => m.id) := by
  refine forall₂_map_eq (runRound1_forall₂ h) _ _ ?_
  rintro model a ⟨t, _, rfl⟩
  rfl

theorem runRound2_modelIds {q : Str} {r1 : List Round1Answer} {clients : Clients}
    {r2 : List Round2Critique} (h : runRound2 q r1 clients = .ok r2) :
    r2.map (fun c => c.modelId) = r1.map (fun a => a.modelId) := by
  refine forall₂_map_eq (runRound2_forall₂ h) _ _ ?_
  rintro self crit ⟨t, _, rfl⟩
  rfl

/-! ## Claim C1 -/

/-- C1: for every successfully completed debate, the `round1` and `round2`
sequences each contain exactly one entry per configured agent identity, in
the configured order (claude, gpt, gemini), regardless of the completion
order of the concurrent provider calls (the embedding's `mapAll` preserves
configured order by construction, as `Promise.all` does): both rounds have
one entry per `MODELS` entry and `round2[i].modelId = round1[i].modelId`
for every index. -/
theorem claim1_round_alignment (question : Str) (clients : Clients)
    (r1 : List Round1Answer) (r2 : List Round2Critique)
    (h1 : runRound1 question clients = .ok r1)
    (h2 : runRound2 question r1 clients = .ok r2) :
    r1.map (fun a => a.modelId) = [ModelId.claude, ModelId.gpt, ModelId.gemini]
    ∧ r2.map (fun c => c.modelId) = r1.map (fun a => a.modelId)
    ∧ r1.length = MODELS.length ∧ r2.length = MODELS.length
    ∧ MODELS.map (fun m => m.id) = [ModelId.claude, ModelId.gpt, ModelId.gemini] := by
  have e1 := runRound1_modelIds h1
  have e2 := runRound2_modelIds h2
  have hm : MODELS.map (fun m => m.id)
      = [ModelId.claude, ModelId.gpt, ModelId.gemini] := rfl
  have l1 : r1.length = MODELS.length := by
    have := congrArg List.length e1
    simpa using this
  have l2 : r2.length = MODELS.length := by
    have := congrArg List.length e2
    simp only [List.length_map] at this
    omega
  exact ⟨by rw [e1, hm], e2, l1, l2, hm⟩

/-- Witness for C1 at a concrete all-providers-succeed run. -/
theorem claim1_round_alignment_witness :
    wRound1.map (fun a => a.modelId) = [ModelId.claude, ModelId.gpt, ModelId.gemini]
    ∧ wRound2.map (fun c => c.modelId) = wRound1.map (fun a => a.modelId)
    ∧ wRound1.length = MODELS.length ∧ wRound2.length = MODELS.length
    ∧ MODELS.map (fun m => m.id) = [ModelId.claude, ModelId.gpt, ModelId.gemini] :=
  claim1_round_alignment wQuestion happyClients wRound1 wRound2 (by rfl) (by rfl)

/-! ## Claim C2 -/

theorem nextMarkers_ne_nil : ∀ m ∈ nextMarkers, m ≠ [] := by decide

/-- C2 counterexample: on `"FINAL_ANSWER:\n\nSOLUTION: x"` the known label
`"\n\nSOLUTION:"` immediately follows the marker (separated only by the
whitespace the source trims away first), so the source returns
`"SOLUTION: x"` while the claim's reading — cut the text following the
marker at the nearest occurrence of any known label, then trim — returns
`""`.  `extractAfterClaim` is modelled from the claim's words. -/
theorem claim2_counterexample :
    extractAfter (("FINAL_ANSWER:\n\nSOLUTION: x").toList) mFINAL_ANSWER
      = ("SOLUTION: x").toList
    ∧ extractAfterClaim (("FINAL_ANSWER:\n\nSOLUTION: x").toList) mFINAL_ANSWER = []
    ∧ extractAfter (("FINAL_ANSWER:\n\nSOLUTION: x").toList) mFINAL_ANSWER
        ≠ extractAfterClaim (("FINAL_ANSWER:\n\nSOLUTION: x").toList) mFINAL_ANSWER := by
  refine ⟨by decide, by decide, by decide⟩

/-- C2 (amended): `extractAfter` never throws (it is a total function); it
returns `""` when the marker is absent; when the marker is present, the text
following the first occurrence of the marker is **first trimmed**, then cut
just before the nearest occurrence of any marker from the closed set of
known next-section labels within that trimmed text (so a label separated
from the marker only by whitespace is returned as content, not used as a
boundary), or kept to end-of-text when none occurs, and trimmed — in
particular a marker followed by N lines of content with no subsequent known
marker yields all N lines, trimmed. -/
theorem claim2_extract_after (text marker : Str) :
    (¬ marker <:+: text → extractAfter text marker = [])
    ∧ (∀ idx, indexOf? text marker = some idx →
        ((∀ m ∈ nextMarkers, ¬ m <:+: trim (text.drop (idx + marker.length))) →
            extractAfter text marker = trim (text.drop (idx + marker.length)))
        ∧ ((∃ m ∈ nextMarkers, m <:+: trim (text.drop (idx + marker.length))) →
            ∃ k, extractAfter text marker
                  = trim ((trim (text.drop (idx + marker.length))).take k)
              ∧ (∃ m ∈ nextMarkers, m <+: (trim (text.drop (idx + marker.length))).drop k)
              ∧ ∀ j < k, ∀ m ∈ nextMarkers, ¬ m <+: (trim (text.drop (idx + marker.length))).drop j)) := by
  constructor
  · intro habs
    have : indexOf? text marker = none := (indexOf?_none_iff text marker).mpr habs
    simp [extractAfter, this]
  · intro idx hidx
    have hunfold : extractAfter text marker
        = trim ((trim (text.drop (idx + marker.length))).take
            (nearestIdx (trim (text.drop (idx + marker.length))) nextMarkers
              (trim (text.drop (idx + marker.length))).length)) := by
      simp [extractAfter, hidx]
    constructor
    · intro hnone
      have hall : ∀ m ∈ nextMarkers,
          indexOf? (trim (text.drop (idx + marker.length))) m = none := by
        intro m hm
        exact (indexOf?_none_iff _ _).mpr (hnone m hm)
      rw [hunfold, nearestIdx_all_none hall, List.take_length, trim_trim]
    · rintro ⟨m, hm, hocc⟩
      set r := trim (text.drop (idx + marker.length)) with hr
      rcases hi : indexOf? r m with _ | i
      · exact absurd hocc ((indexOf?_none_iff r m).mp hi)
      have hilt : i < r.length := by
        have hpre := indexOf?_some_isPrefix hi
        have hlen := hpre.length_le
        have hmne : m ≠ [] := nextMarkers_ne_nil m hm
        have : 0 < m.length := List.length_pos.mpr hmne
        simp only [List.length_drop] at hlen
        omega
      have hk := nearestIdx_le_some hm hi r.length
      rcases nearestIdx_cases r nextMarkers r.length with heq | ⟨m', hm', h'⟩
      · omega
      refine ⟨nearestIdx r nextMarkers r.length, hunfold, ?_, ?_⟩
      · exact ⟨m', hm', indexOf?_some_isPrefix h'⟩
      · intro j hj m'' hm'' hpre
        obtain ⟨i'', hi'', hle⟩ := indexOf?_le_of_prefix_drop hpre
        have := nearestIdx_le_some hm'' hi'' r.length
        omega

/-- Witness for C2: both branches of the amended claim at concrete inputs:
a marker with multi-line content and no following label yields all of it,
and an absent marker yields the empty string. -/
theorem claim2_extract_after_witness :
    extractAfter (("FINAL_ANSWER:\nline one\nline two").toList) mFINAL_ANSWER
      = ("line one\nline two").toList
    ∧ extractAfter (("no markers here").toList) mFINAL_ANSWER = [] := by
  constructor
  · have h := (claim2_extract_after (("FINAL_ANSWER:\nline one\nline two").toList)
      mFINAL_ANSWER).2 0 (by decide)
    have := h.1 (by decide)
    rw [this]
    decide
  · exact (claim2_extract_after (("no markers here").toList) mFINAL_ANSWER).1 (by decide)

/-! ## Claim C7 -/

/-- C7 counterexample: the claimed idempotence fails.  On
`"REASONING: hi FINAL_ANSWER:"` extraction yields `"hi"`; neither marker
recurs in that output, yet re-extraction from the output yields `""`, not
the output itself. -/
theorem claim7_counterexample :
    extractBetween (("REASONING: hi FINAL_ANSWER:").toList) mREASONING mFINAL_ANSWER
      = ("hi").toList
    ∧ ¬ mREASONING <:+: ("hi").toList
    ∧ ¬ mFINAL_ANSWER <:+: ("hi").toList
    ∧ extractBetween
        (extractBetween (("REASONING: hi FINAL_ANSWER:").toList) mREASONING mFINAL_ANSWER)
        mREASONING mFINAL_ANSWER
      ≠ extractBetween (("REASONING: hi FINAL_ANSWER:").toList) mREASONING mFINAL_ANSWER := by
  refine ⟨by decide, by decide, by decide, by decide⟩

/-- C7 (amended): `extractBetween` returns `""` when the start marker is
absent; with the start marker present at first occurrence `i`, it returns
everything from the end of the start marker to end-of-text, trimmed, when
the end marker does not occur after it, and otherwise the substring
strictly between the start marker and the *first* following occurrence of
the end marker, trimmed.  Its output is stable under trimming, but it is
**not** idempotent on its own output: re-extracting from an output in which
the start marker does not recur yields the empty string. -/
theorem claim7_extract_between (text startMarker endMarker : Str) :
    (¬ startMarker <:+: text → extractBetween text startMarker endMarker = [])
    ∧ (∀ i, indexOf? text startMarker = some i →
        (startMarker <+: text.drop i ∧ ∀ j < i, ¬ startMarker <+: text.drop j)
        ∧ (¬ endMarker <:+: text.drop (i + startMarker.length) →
            extractBetween text startMarker endMarker
              = trim (text.drop (i + startMarker.length)))
        ∧ (∀ j, indexOf? (text.drop (i + startMarker.length)) endMarker = some j →
            extractBetween text startMarker endMarker
              = trim ((text.drop (i + startMarker.length)).take j)
            ∧ endMarker <+: (text.drop (i + startMarker.length)).drop j
            ∧ ∀ j2 < j, ¬ endMarker <+: (text.drop (i + startMarker.length)).drop j2))
    ∧ trim (extractBetween text startMarker endMarker)
        = extractBetween text startMarker endMarker
    ∧ (¬ startMarker <:+: extractBetween text startMarker endMarker →
        extractBetween (extractBetween text startMarker endMarker)
          startMarker endMarker = []) := by
  have habsent : ∀ t : Str, ¬ startMarker <:+: t →
      extractBetween t startMarker endMarker = [] := by
    intro t ht
    have : indexOf? t startMarker = none := (indexOf?_none_iff t startMarker).mpr ht
    simp [extractBetween, this]
  refine ⟨habsent text, ?_, ?_, habsent _⟩
  · intro i hi
    refine ⟨⟨indexOf?_some_isPrefix hi, indexOf?_some_minimal hi⟩, ?_, ?_⟩
    · intro hend
      have : indexOf? (text.drop (i + startMarker.length)) endMarker = none :=
        (indexOf?_none_iff _ _).mpr hend
      simp [extractBetween, hi, this]
    · intro j hj
      refine ⟨by simp [extractBetween, hi, hj], indexOf?_some_isPrefix hj,
        indexOf?_some_minimal hj⟩
  · rcases h1 : indexOf? text startMarker with _ | i
    · simp [extractBetween, h1, trim]
    · rcases h2 : indexOf? (text.drop (i + startMarker.length)) endMarker with _ | j
      · simp [extractBetween, h1, h2, trim_trim]
      · simp [extractBetween, h1, h2, trim_trim]

/-- Witness for C7: the well-formed two-marker branch at a concrete input. -/
theorem claim7_extract_between_witness :
    extractBetween (("REASONING: think FINAL_ANSWER: 42").toList)
        mREASONING mFINAL_ANSWER = ("think").toList
    ∧ trim (extractBetween (("REASONING: think FINAL_ANSWER: 42").toList)
        mREASONING mFINAL_ANSWER)
      = extractBetween (("REASONING: think FINAL_ANSWER: 42").toList)
        mREASONING mFINAL_ANSWER := by
  constructor
  · have h := ((claim7_extract_between (("REASONING: think FINAL_ANSWER: 42").toList)
      mREASONING mFINAL_ANSWER).2.1 0 (by decide)).2.2 7 (by decide)
    rw [h.1]
    decide
  · exact (claim7_extract_between (("REASONING: think FINAL_ANSWER: 42").toList)
      mREASONING mFINAL_ANSWER).2.2.1

/-! ## Claim C3 -/

theorem errFallback_facts :
    mREASONING <:+: GEMINI_ERROR_FALLBACK ∧ mFINAL_ANSWER <:+: GEMINI_ERROR_FALLBACK
    ∧ mCRITIQUE <:+: GEMINI_ERROR_FALLBACK
    ∧ mUPDATED_FINAL_ANSWER <:+: GEMINI_ERROR_FALLBACK
    ∧ extractAfter GEMINI_ERROR_FALLBACK mFINAL_ANSWER = NO_ANSWER_SENTINEL
    ∧ extractAfter GEMINI_ERROR_FALLBACK mUPDATED_FINAL_ANSWER = NO_ANSWER_SENTINEL := by
  refine ⟨by decide, by decide, by decide, by decide, by decide, by decide⟩

theorem emptyFallback_facts :
    mREASONING <:+: GEMINI_EMPTY_FALLBACK ∧ mFINAL_ANSWER <:+: GEMINI_EMPTY_FALLBACK
    ∧ mCRITIQUE <:+: GEMINI_EMPTY_FALLBACK
    ∧ mUPDATED_FINAL_ANSWER <:+: GEMINI_EMPTY_FALLBACK
    ∧ extractAfter GEMINI_EMPTY_FALLBACK mFINAL_ANSWER = NO_ANSWER_SENTINEL
    ∧ extractAfter GEMINI_EMPTY_FALLBACK mUPDATED_FINAL_ANSWER = NO_ANSWER_SENTINEL := by
  refine ⟨by decide, by decide, by decide, by decide, by decide, by decide⟩

/-- C3 counterexample: the fallback is not "a fixed fallback payload
pre-populated with every structured marker used by any round": there are
two distinct fallback payloads (one for a thrown call, one for empty
text), and neither contains the round-3 markers `JUSTIFICATION:` /
`RATIONALE:` even though round 3's extraction searches for them. -/
theorem claim3_counterexample :
    callLLM GEMINI_CONFIG R1_SYSTEM_PROMPT
        (("QUESTION:\n").toList ++ wQuestion) geminiFailClients
      = .ok GEMINI_ERROR_FALLBACK
    ∧ mJUSTIFICATION ∈ roundExtractionMarkers
    ∧ mRATIONALE ∈ roundExtractionMarkers
    ∧ ¬ mJUSTIFICATION <:+: GEMINI_ERROR_FALLBACK
    ∧ ¬ mRATIONALE <:+: GEMINI_ERROR_FALLBACK
    ∧ ¬ mJUSTIFICATION <:+: GEMINI_EMPTY_FALLBACK
    ∧ GEMINI_ERROR_FALLBACK ≠ GEMINI_EMPTY_FALLBACK := by
  refine ⟨by rfl, by decide, by decide, by decide, by decide, by decide, by decide⟩

theorem callLLM_anthropic_unfold (clients : Clients) (sys usr : Str) (mt : Nat) :
    callLLM CLAUDE_CONFIG sys usr clients mt
      = match clients.anthropic (CLAUDE_CONFIG).modelName
          (sys ++ ("\n\n").toList ++ usr) (getMaxTokensForProvider .anthropic mt) with
        | .error e => .error e
        | .ok (some t) => .ok t
        | .ok none => .ok [] := rfl

theorem callLLM_openai_unfold (clients : Clients) (sys usr : Str) (mt : Nat) :
    callLLM GPT_CONFIG sys usr clients mt
      = match clients.openai (GPT_CONFIG).modelName sys usr
          (getMaxTokensForProvider .openai mt) with
        | .error e => .error e
        | .ok (some t) => .ok t
        | .ok none => .ok [] := rfl

theorem callLLM_google_unfold (clients : Clients) (sys usr : Str) (mt : Nat) :
    callLLM GEMINI_CONFIG sys usr clients mt
      = match clients.google (GEMINI_CONFIG).modelName sys usr
          (getMaxTokensForProvider .google mt) with
        | .error _ => .ok GEMINI_ERROR_FALLBACK
        | .ok (.error _) => .ok GEMINI_EMPTY_FALLBACK
        | .ok (.ok t) => if trim t = [] then .ok GEMINI_EMPTY_FALLBACK else .ok t := rfl

theorem callLLM_anthropic_ok (clients : Clients) (sys usr : Str) (mt : Nat)
    (h : ∀ mn c k, ∃ v, clients.anthropic mn c k = .ok v) :
    ∃ t, callLLM CLAUDE_CONFIG sys usr clients mt = .ok t := by
  obtain ⟨v, hv⟩ := h (CLAUDE_CONFIG).modelName
    (sys ++ ("\n\n").toList ++ usr) (getMaxTokensForProvider .anthropic mt)
  rw [callLLM_anthropic_unfold, hv]
  cases v with
  | none => exact ⟨[], rfl⟩
  | some t => exact ⟨t, rfl⟩

theorem callLLM_openai_ok (clients : Clients) (sys usr : Str) (mt : Nat)
    (h : ∀ mn s u k, ∃ v, clients.openai mn s u k = .ok v) :
    ∃ t, callLLM GPT_CONFIG sys usr clients mt = .ok t := by
  obtain ⟨v, hv⟩ := h (GPT_CONFIG).modelName sys usr
    (getMaxTokensForProvider .openai mt)
  rw [callLLM_openai_unfold, hv]
  cases v with
  | none => exact ⟨[], rfl⟩
  | some t => exact ⟨t, rfl⟩

/-- The gateway-level soft-failure guarantee for Gemini: a misbehaving call
never propagates; one of the two fixed fallback payloads is returned. -/
theorem callLLM_google_soft (clients : Clients) (sys usr : Str) (mt : Nat)
    (h : googleMisbehaves (clients.google (GEMINI_CONFIG).modelName sys usr
      (getMaxTokensForProvider .google mt))) :
    ∃ p, callLLM GEMINI_CONFIG sys usr clients mt = .ok p
      ∧ (p = GEMINI_ERROR_FALLBACK ∨ p = GEMINI_EMPTY_FALLBACK) := by
  rw [callLLM_google_unfold]
  rcases hg : clients.google (GEMINI_CONFIG).modelName sys usr
      (getMaxTokensForProvider .google mt) with e | inner
  · exact ⟨GEMINI_ERROR_FALLBACK, rfl, .inl rfl⟩
  · cases inner with
    | error e' => exact ⟨GEMINI_EMPTY_FALLBACK, rfl, .inr rfl⟩
    | ok t =>
      have htrim : trim t = [] := by
        simpa [googleMisbehaves, hg] using h
      exact ⟨GEMINI_EMPTY_FALLBACK, by simp [htrim], .inr rfl⟩

theorem runRound1_ok_soft (q : Str) (clients : Clients)
    (hA : ∀ mn c k, ∃ v, clients.anthropic mn c k = .ok v)
    (hO : ∀ mn s u k, ∃ v, clients.openai mn s u k = .ok v)
    (hG : ∀ mn s u k, googleMisbehaves (clients.google mn s u k)) :
    ∃ a1 a2 a3, runRound1 q clients = .ok [a1, a2, a3]
      ∧ a1.modelId = ModelId.claude ∧ a2.modelId = ModelId.gpt
      ∧ a3.modelId = ModelId.gemini
      ∧ a3.finalAnswer = NO_ANSWER_SENTINEL := by
  obtain ⟨t1, h1⟩ := callLLM_anthropic_ok clients R1_SYSTEM_PROMPT
    (("QUESTION:\n").toList ++ q) 8192 hA
  obtain ⟨t2, h2⟩ := callLLM_openai_ok clients R1_SYSTEM_PROMPT
    (("QUESTION:\n").toList ++ q) 8192 hO
  obtain ⟨p3, h3, hp3⟩ := callLLM_google_soft clients R1_SYSTEM_PROMPT
    (("QUESTION:\n").toList ++ q) 8192 (hG _ _ _ _)
  refine ⟨⟨ModelId.claude, t1, jsOr (extractBetween t1 mREASONING mFINAL_ANSWER) t1,
      jsOr (extractAfter t1 mFINAL_ANSWER) NO_ANSWER_SENTINEL⟩,
    ⟨ModelId.gpt, t2, jsOr (extractBetween t2 mREASONING mFINAL_ANSWER) t2,
      jsOr (extractAfter t2 mFINAL_ANSWER) NO_ANSWER_SENTINEL⟩,
    ⟨ModelId.gemini, p3, jsOr (extractBetween p3 mREASONING mFINAL_ANSWER) p3,
      jsOr (extractAfter p3 mFINAL_ANSWER) NO_ANSWER_SENTINEL⟩, ?_, rfl, rfl, rfl, ?_⟩
  · simp only [runRound1, MODELS, mapAll, h1, h2, h3]
    rfl
  · rcases hp3 with rfl | rfl
    · rw [show extractAfter GEMINI_ERROR_FALLBACK mFINAL_ANSWER = NO_ANSWER_SENTINEL
        from errFallback_facts.2.2.2.2.1]
      decide
    · rw [show extractAfter GEMINI_EMPTY_FALLBACK mFINAL_ANSWER = NO_ANSWER_SENTINEL
        from emptyFallback_facts.2.2.2.2.1]
      decide

theorem runRound2_ok_soft (q : Str) (clients : Clients) (a1 a2 a3 : Round1Answer)
    (hA : ∀ mn c k, ∃ v, clients.anthropic mn c k = .ok v)
    (hO : ∀ mn s u k, ∃ v, clients.openai mn s u k = .ok v)
    (hG : ∀ mn s u k, googleMisbehaves (clients.google mn s u k))
    (e1 : a1.modelId = ModelId.claude) (e2 : a2.modelId = ModelId.gpt)
    (e3 : a3.modelId = ModelId.gemini) :
    ∃ l, runRound2 q [a1, a2, a3] clients = .ok l := by
  obtain ⟨t1, h1⟩ := callLLM_anthropic_ok clients R2_SYSTEM_PROMPT
    (buildRound2UserPrompt q a1
      (List.filter (fun r => r.modelId != a1.modelId) [a1, a2, a3])) 8192 hA
  obtain ⟨t2, h2⟩ := callLLM_openai_ok clients R2_SYSTEM_PROMPT
    (buildRound2UserPrompt q a2
      (List.filter (fun r => r.modelId != a2.modelId) [a1, a2, a3])) 8192 hO
  obtain ⟨p3, h3, _⟩ := callLLM_google_soft clients R2_SYSTEM_PROMPT
    (buildRound2UserPrompt q a3
      (List.filter (fun r => r.modelId != a3.modelId) [a1, a2, a3])) 8192 (hG _ _ _ _)
  have hf1 : findModelConfig a1.modelId = CLAUDE_CONFIG := by rw [e1]; rfl
  have hf2 : findModelConfig a2.modelId = GPT_CONFIG := by rw [e2]; rfl
  have hf3 : findModelConfig a3.modelId = GEMINI_CONFIG := by rw [e3]; rfl
  refine ⟨[⟨a1.modelId, t1, jsOr (extractBetween t1 mCRITIQUE mUPDATED_FINAL_ANSWER) t1,
      jsOr (extractAfter t1 mUPDATED_FINAL_ANSWER) a1.finalAnswer⟩,
    ⟨a2.modelId, t2, jsOr (extractBetween t2 mCRITIQUE mUPDATED_FINAL_ANSWER) t2,
      jsOr (extractAfter t2 mUPDATED_FINAL_ANSWER) a2.finalAnswer⟩,
    ⟨a3.modelId, p3, jsOr (extractBetween p3 mCRITIQUE mUPDATED_FINAL_ANSWER) p3,
      jsOr (extractAfter p3 mUPDATED_FINAL_ANSWER) a3.finalAnswer⟩], ?_⟩
  simp only [runRound2, mapAll, hf1, hf2, hf3, h1, h2, h3]

theorem runRound3_ok_soft (q : Str) (clients : Clients)
    (round1 : List Round1Answer) (round2 : List Round2Critique)
    (hA : ∀ mn c k, ∃ v, clients.anthropic mn c k = .ok v) :
    ∃ fin rat, runRound3 q round1 round2 clients = .ok (fin, rat) := by
  obtain ⟨t, h⟩ := callLLM_anthropic_ok clients R3_SYSTEM_PROMPT
    (buildArbiterPrompt q round1 round2) 8192 hA
  refine ⟨jsOr (extractAfter t mFINAL_ANSWER) UNABLE_SENTINEL,
    jsOr (jsOr (extractAfter t mJUSTIFICATION) (extractAfter t mRATIONALE)) t, ?_⟩
  simp only [runRound3, ARBITER_MODEL, h]

/-! ## Claim C10 -/

/-- C10 counterexample: a completed debate in which the arbiter's raw
response text is empty ends with `finalAnswer` equal to the round-3
sentinel but `finalRationale` equal to the **empty** string — the
arbitration fields are not "never empty". -/
theorem claim10_counterexample :
    POST (.str wQuestion) c10Clients = ⟨200, .result c10Result⟩
    ∧ c10Result.finalAnswer = UNABLE_SENTINEL
    ∧ c10Result.finalRationale = []
    ∧ UNABLE_SENTINEL ≠ NO_ANSWER_SENTINEL := by
  refine ⟨by rfl, by decide, by decide, by decide⟩

/-- C10 (amended): on a completed arbitration, `finalAnswer` is the
extracted round-3 `FINAL_ANSWER` field or — when that extraction yields
nothing — the sentinel `"Unable to determine final answer"` (a different
sentinel from `"No answer provided"`), so it is never empty; the rationale
is extracted after `JUSTIFICATION:`, falling back first to the text after
`RATIONALE:` and finally to the arbiter's full raw response text, so it is
empty only when the arbiter's raw response text is itself empty. -/
theorem claim10_arbitration_fields (q : Str) (r1 : List Round1Answer)
    (r2 : List Round2Critique) (clients : Clients) (t : Str)
    (h : callLLM ARBITER_MODEL R3_SYSTEM_PROMPT (buildArbiterPrompt q r1 r2)
      clients 8192 = .ok t) :
    ∃ fin rat, runRound3 q r1 r2 clients = .ok (fin, rat)
      ∧ (extractAfter t mFINAL_ANSWER = [] → fin = UNABLE_SENTINEL)
      ∧ (extractAfter t mFINAL_ANSWER ≠ [] → fin = extractAfter t mFINAL_ANSWER)
      ∧ (extractAfter t mJUSTIFICATION ≠ [] → rat = extractAfter t mJUSTIFICATION)
      ∧ (extractAfter t mJUSTIFICATION = [] → extractAfter t mRATIONALE ≠ [] →
          rat = extractAfter t mRATIONALE)
      ∧ (extractAfter t mJUSTIFICATION = [] → extractAfter t mRATIONALE = [] →
          rat = t)
      ∧ fin ≠ []
      ∧ UNABLE_SENTINEL ≠ NO_ANSWER_SENTINEL
      ∧ (t ≠ [] → rat ≠ []) := by
  refine ⟨jsOr (extractAfter t mFINAL_ANSWER) UNABLE_SENTINEL,
    jsOr (jsOr (extractAfter t mJUSTIFICATION) (extractAfter t mRATIONALE)) t,
    ?_, ?_, ?_, ?_, ?_, ?_, ?_, by decide, ?_⟩
  · simp only [runRound3, h]
  · intro he
    simp [jsOr, he]
  · intro he
    simp [jsOr, he]
  · intro he
    simp [jsOr, he]
  · intro he hr
    simp [jsOr, he, hr]
  · intro he hr
    simp [jsOr, he, hr]
  · by_cases he : extractAfter t mFINAL_ANSWER = []
    · simp only [jsOr, he, if_pos]
      decide
    · simp [jsOr, he]
  · intro ht
    by_cases hj : jsOr (extractAfter t mJUSTIFICATION) (extractAfter t mRATIONALE) = []
    · simp only [jsOr] at hj ⊢
      simp [hj, ht]
    · simp only [jsOr] at hj ⊢
      simp [hj]

/-- C10 witness: the amended statement at the concrete happy-path
arbitration. -/
theorem claim10_arbitration_fields_witness :
    ∃ fin rat, runRound3 wQuestion wRound1 wRound2 happyClients = .ok (fin, rat)
      ∧ (extractAfter happyText mFINAL_ANSWER = [] → fin = UNABLE_SENTINEL)
      ∧ (extractAfter happyText mFINAL_ANSWER ≠ [] →
          fin = extractAfter happyText mFINAL_ANSWER)
      ∧ (extractAfter happyText mJUSTIFICATION ≠ [] →
          rat = extractAfter happyText mJUSTIFICATION)
      ∧ (extractAfter happyText mJUSTIFICATION = [] →
          extractAfter happyText mRATIONALE ≠ [] →
          rat = extractAfter happyText mRATIONALE)
      ∧ (extractAfter happyText mJUSTIFICATION = [] →
          extractAfter happyText mRATIONALE = [] → rat = happyText)
      ∧ fin ≠ []
      ∧ UNABLE_SENTINEL ≠ NO_ANSWER_SENTINEL
      ∧ (happyText ≠ [] → rat ≠ []) :=
  claim10_arbitration_fields wQuestion wRound1 wRound2 happyClients happyText (by rfl)

/-- C3 (amended): whenever the best-effort provider (Gemini) fails outright
or returns an empty/unusable payload, `callLLM` returns one of **two** fixed
fallback payloads (one for a thrown call, one for empty/filtered text), each
pre-populated with every structured marker used by rounds 1 and 2 — the only
rounds a best-effort provider serves — so the affected agent's Round1Answer
has `finalAnswer = "No answer provided"` and the debate still runs to
completion (a 200 response with a full `DebateResult`) instead of aborting. -/
theorem claim3_soft_fallback (clients : Clients) :
    (∀ sys usr mt,
      googleMisbehaves (clients.google (GEMINI_CONFIG).modelName sys usr
        (getMaxTokensForProvider .google mt)) →
      ∃ p, callLLM GEMINI_CONFIG sys usr clients mt = .ok p
        ∧ (p = GEMINI_ERROR_FALLBACK ∨ p = GEMINI_EMPTY_FALLBACK)
        ∧ mREASONING <:+: p ∧ mFINAL_ANSWER <:+: p
        ∧ mCRITIQUE <:+: p ∧ mUPDATED_FINAL_ANSWER <:+: p
        ∧ extractAfter p mFINAL_ANSWER = NO_ANSWER_SENTINEL
        ∧ extractAfter p mUPDATED_FINAL_ANSWER = NO_ANSWER_SENTINEL)
    ∧ (∀ q, q ≠ [] →
        (∀ mn c k, ∃ v, clients.anthropic mn c k = .ok v) →
        (∀ mn s u k, ∃ v, clients.openai mn s u k = .ok v) →
        (∀ mn s u k, googleMisbehaves (clients.google mn s u k)) →
        ∃ d, POST (.str q) clients = ⟨200, .result d⟩
          ∧ ∀ a ∈ d.round1, a.modelId = ModelId.gemini →
              a.finalAnswer = NO_ANSWER_SENTINEL) := by
  constructor
  · intro sys usr mt hmis
    obtain ⟨p, hp, hcase⟩ := callLLM_google_soft clients sys usr mt hmis
    refine ⟨p, hp, hcase, ?_⟩
    rcases hcase with rfl | rfl
    · exact ⟨errFallback_facts.1, errFallback_facts.2.1, errFallback_facts.2.2.1,
        errFallback_facts.2.2.2.1, errFallback_facts.2.2.2.2.1,
        errFallback_facts.2.2.2.2.2⟩
    · exact ⟨emptyFallback_facts.1, emptyFallback_facts.2.1, emptyFallback_facts.2.2.1,
        emptyFallback_facts.2.2.2.1, emptyFallback_facts.2.2.2.2.1,
        emptyFallback_facts.2.2.2.2.2⟩
  · intro q hq hA hO hG
    obtain ⟨a1, a2, a3, hr1, e1, e2, e3, hfa⟩ := runRound1_ok_soft q clients hA hO hG
    obtain ⟨l2, hr2⟩ := runRound2_ok_soft q clients a1 a2 a3 hA hO hG e1 e2 e3
    obtain ⟨fin, rat, hr3⟩ := runRound3_ok_soft q clients [a1, a2, a3] l2 hA
    refine ⟨⟨q, [a1, a2, a3], l2, fin, rat, l2.map (fun r => r.modelId)⟩, ?_, ?_⟩
    · simp only [POST, runDebate, hr1, hr2, hr3, if_neg hq]
    · intro a ha hgem
      simp only [List.mem_cons, List.not_mem_nil, or_false] at ha
      rcases ha with rfl | rfl | rfl
      · simp [e1] at hgem
      · simp [e2] at hgem
      · exact hfa

/-- C3 witness: with Gemini failing on every call and the other providers
healthy, the debate completes with the sentinel for the Gemini agent. -/
theorem claim3_soft_fallback_witness :
    ∃ d, POST (.str wQuestion) geminiFailClients = ⟨200, .result d⟩
      ∧ ∀ a ∈ d.round1, a.modelId = ModelId.gemini →
          a.finalAnswer = NO_ANSWER_SENTINEL :=
  (claim3_soft_fallback geminiFailClients).2 wQuestion (by decide)
    (fun _ _ _ => ⟨some happyText, rfl⟩) (fun _ _ _ _ => ⟨some happyText, rfl⟩)
    (fun _ _ _ _ => trivial)

/-! ## Claim C4 -/

theorem mem_jsJoin_infix (sep : Str) : ∀ (l : List Str) (x : Str), x ∈ l →
    x <:+: jsJoin sep l := by
  intro l
  induction l with
  | nil => intro x hx; cases hx
  | cons y ys ih =>
    intro x hx
    rcases List.mem_cons.mp hx with rfl | hx'
    · cases ys with
      | nil => exact List.infix_refl x
      | cons z zs =>
        show x <:+: x ++ sep ++ jsJoin sep (z :: zs)
        exact ((x.prefix_append sep).trans (List.prefix_append _ _)).isInfix
    · cases ys with
      | nil => cases hx'
      | cons z zs =>
        show x <:+: y ++ sep ++ jsJoin sep (z :: zs)
        exact ((ih x hx').trans (List.suffix_append _ _).isInfix)

theorem answerBlock_infix_prompt (q : Str) (self : Round1Answer)
    (others : List Round1Answer) (o : Round1Answer) (ho : o ∈ others) :
    answerBlock o <:+: buildRound2UserPrompt q self others := by
  have h1 : answerBlock o <:+: jsJoin (("\n\n").toList) (others.map answerBlock) :=
    mem_jsJoin_infix _ _ _ (List.mem_map_of_mem _ ho)
  refine h1.trans ?_
  show jsJoin (("\n\n").toList) (others.map answerBlock) <:+: _
  simp only [buildRound2UserPrompt]
  exact (List.suffix_append _ _).isInfix

theorem filter_modelId_map (r1 : List Round1Answer) (i0 : ModelId) :
    (r1.filter (fun r => r.modelId != i0)).map (fun a => a.modelId)
      = (r1.map (fun a => a.modelId)).filter (fun i => i != i0) := by
  induction r1 with
  | nil => rfl
  | cons a l ih =>
    cases h : a.modelId != i0 <;> simp [List.filter_cons, h, ih]

/-- C4: for every agent X of a completed Round 1, the "others" list used to
build X's Round 2 critique prompt never contains X's own Round 1 answer,
contains exactly the Round 1 answers of the other configured agents (one
per distinct identity), and the prompt's "others" section carries each such
agent's labelled block — `ANSWER_FROM_<id>` with that agent's Round 1
reasoning and final answer — at least once. -/
theorem claim4_round2_others (q : Str) (clients : Clients)
    (r1 : List Round1Answer) (h : runRound1 q clients = .ok r1)
    (self : Round1Answer) (_hself : self ∈ r1) :
    self ∉ r1.filter (fun r => r.modelId != self.modelId)
    ∧ (∀ o ∈ r1.filter (fun r => r.modelId != self.modelId),
        o.modelId ≠ self.modelId)
    ∧ (∀ r ∈ r1, r.modelId ≠ self.modelId →
        r ∈ r1.filter (fun r => r.modelId != self.modelId))
    ∧ (r1.filter (fun r => r.modelId != self.modelId)).map (fun a => a.modelId)
        = [ModelId.claude, ModelId.gpt, ModelId.gemini].filter
            (fun i => i != self.modelId)
    ∧ ∀ o ∈ r1.filter (fun r => r.modelId != self.modelId),
        answerBlock o <:+: buildRound2UserPrompt q self
          (r1.filter (fun r => r.modelId != self.modelId)) := by
  refine ⟨?_, ?_, ?_, ?_, ?_⟩
  · intro hmem
    have := (List.mem_filter.mp hmem).2
    simp at this
  · intro o hmem
    have := (List.mem_filter.mp hmem).2
    simpa using this
  · intro r hr hne
    exact List.mem_filter.mpr ⟨hr, by simpa using hne⟩
  · rw [filter_modelId_map, runRound1_modelIds h]
    rfl
  · intro o hmem
    exact answerBlock_infix_prompt q self _ o hmem

/-- C4 witness at the concrete happy-path run, for the claude agent. -/
theorem claim4_round2_others_witness :
    wSelf ∉ wRound1.filter (fun r => r.modelId != wSelf.modelId)
    ∧ (∀ o ∈ wRound1.filter (fun r => r.modelId != wSelf.modelId),
        o.modelId ≠ wSelf.modelId)
    ∧ (∀ r ∈ wRound1, r.modelId ≠ wSelf.modelId →
        r ∈ wRound1.filter (fun r => r.modelId != wSelf.modelId))
    ∧ (wRound1.filter (fun r => r.modelId != wSelf.modelId)).map (fun a => a.modelId)
        = [ModelId.claude, ModelId.gpt, ModelId.gemini].filter
            (fun i => i != wSelf.modelId)
    ∧ ∀ o ∈ wRound1.filter (fun r => r.modelId != wSelf.modelId),
        answerBlock o <:+: buildRound2UserPrompt wQuestion wSelf
          (wRound1.filter (fun r => r.modelId != wSelf.modelId)) :=
  claim4_round2_others wQuestion happyClients wRound1 (by rfl) wSelf (by decide)

/-! ## Claim C5 -/

/-- C5 counterexample: an agent that soft-failed in Round 1 carries the
sentinel as its Round 1 `finalAnswer`; when its Round 2 extraction of
`UPDATED_FINAL_ANSWER` then yields nothing, `revisedAnswer` falls back to
that sentinel — so `revisedAnswer` *can* be `"No answer provided"`. -/
theorem claim5_counterexample :
    runRound1 wQuestion c5Clients = .ok c5Round1
    ∧ runRound2 wQuestion c5Round1 c5Clients = .ok c5Round2
    ∧ (c5Round2.getD 2 defaultCrit).modelId = ModelId.gemini
    ∧ extractAfter (c5Round2.getD 2 defaultCrit).rawCritique
        mUPDATED_FINAL_ANSWER = []
    ∧ (c5Round2.getD 2 defaultCrit).revisedAnswer = NO_ANSWER_SENTINEL := by
  refine ⟨by rfl, by rfl, by decide, by decide, by decide⟩

/-- C5 (amended): for every agent whose Round 2 extraction of
`UPDATED_FINAL_ANSWER` yields nothing, that agent's `revisedAnswer` equals
the agent's own Round 1 `finalAnswer`; it equals the sentinel
`"No answer provided"` exactly when that Round 1 answer was already the
sentinel. -/
theorem claim5_revised_fallback (q : Str) (r1 : List Round1Answer)
    (clients : Clients) (r2 : List Round2Critique)
    (h : runRound2 q r1 clients = .ok r2) :
    List.Forall₂ (fun (self : Round1Answer) (crit : Round2Critique) =>
      extractAfter crit.rawCritique mUPDATED_FINAL_ANSWER = [] →
        crit.revisedAnswer = self.finalAnswer
        ∧ (crit.revisedAnswer = NO_ANSWER_SENTINEL
            ↔ self.finalAnswer = NO_ANSWER_SENTINEL)) r1 r2 := by
  refine (runRound2_forall₂ h).imp ?_
  rintro self crit ⟨t, hcall, rfl⟩
  intro hex
  have hex' : extractAfter t mUPDATED_FINAL_ANSWER = [] := hex
  have hrev : jsOr (extractAfter t mUPDATED_FINAL_ANSWER) self.finalAnswer
      = self.finalAnswer := by
    rw [hex']
    rfl
  refine ⟨hrev, ?_⟩
  show jsOr (extractAfter t mUPDATED_FINAL_ANSWER) self.finalAnswer
      = NO_ANSWER_SENTINEL ↔ self.finalAnswer = NO_ANSWER_SENTINEL
  rw [hrev]

/-- C5 witness: the amended statement at the concrete happy-path run. -/
theorem claim5_revised_fallback_witness :
    List.Forall₂ (fun (self : Round1Answer) (crit : Round2Critique) =>
      extractAfter crit.rawCritique mUPDATED_FINAL_ANSWER = [] →
        crit.revisedAnswer = self.finalAnswer
        ∧ (crit.revisedAnswer = NO_ANSWER_SENTINEL
            ↔ self.finalAnswer = NO_ANSWER_SENTINEL)) wRound1 wRound2 :=
  claim5_revised_fallback wQuestion wRound1 happyClients wRound2 (by rfl)

/-! ## Claim C6 -/

/-- C6 counterexample: when a provider's raw response text is empty (an
Anthropic response whose first content block is not text), Round 1
`REASONING` extraction yields nothing and the fallback — the full raw
response text — applies, yet the resulting `reasoning` field is the empty
string: the claim's "extraction never returns an empty field when the
fallback applies" fails.  (`finalAnswer` still gets the sentinel.) -/
theorem claim6_counterexample :
    runRound1 wQuestion c6Clients = .ok c6Round1
    ∧ (c6Round1.getD 0 defaultAns).rawAnswer = []
    ∧ extractBetween (c6Round1.getD 0 defaultAns).rawAnswer
        mREASONING mFINAL_ANSWER = []
    ∧ (c6Round1.getD 0 defaultAns).reasoning = []
    ∧ (c6Round1.getD 0 defaultAns).finalAnswer = NO_ANSWER_SENTINEL := by
  refine ⟨by rfl, by decide, by decide, by decide, by decide⟩

/-- C6 (amended): for every agent's Round 1 response text, `finalAnswer` is
the extracted `FINAL_ANSWER` field, or the sentinel `"No answer provided"`
when that extraction yields nothing; `reasoning` is the field extracted
between `REASONING:` and `FINAL_ANSWER:`, or the full raw response text
when that extraction yields nothing.  `finalAnswer` is never empty, and
`reasoning` is non-empty whenever the raw response text is non-empty (it is
empty exactly when extraction fails on an empty raw response). -/
theorem claim6_round1_fields (q : Str) (clients : Clients)
    (r1 : List Round1Answer) (h : runRound1 q clients = .ok r1) :
    List.Forall₂ (fun (model : ModelConfig) (a : Round1Answer) =>
      a.modelId = model.id
      ∧ (extractAfter a.rawAnswer mFINAL_ANSWER = [] →
          a.finalAnswer = NO_ANSWER_SENTINEL)
      ∧ (extractAfter a.rawAnswer mFINAL_ANSWER ≠ [] →
          a.finalAnswer = extractAfter a.rawAnswer mFINAL_ANSWER)
      ∧ (extractBetween a.rawAnswer mREASONING mFINAL_ANSWER = [] →
          a.reasoning = a.rawAnswer)
      ∧ (extractBetween a.rawAnswer mREASONING mFINAL_ANSWER ≠ [] →
          a.reasoning = extractBetween a.rawAnswer mREASONING mFINAL_ANSWER)
      ∧ a.finalAnswer ≠ []
      ∧ (a.rawAnswer ≠ [] → a.reasoning ≠ [])) MODELS r1 := by
  refine (runRound1_forall₂ h).imp ?_
  rintro model a ⟨t, hcall, rfl⟩
  refine ⟨rfl, ?_, ?_, ?_, ?_, ?_, ?_⟩
  · intro he
    show jsOr (extractAfter t mFINAL_ANSWER) NO_ANSWER_SENTINEL = NO_ANSWER_SENTINEL
    rw [he]
    rfl
  · intro he
    show jsOr (extractAfter t mFINAL_ANSWER) NO_ANSWER_SENTINEL
        = extractAfter t mFINAL_ANSWER
    simp [jsOr, he]
  · intro he
    show jsOr (extractBetween t mREASONING mFINAL_ANSWER) t = t
    rw [he]
    rfl
  · intro he
    show jsOr (extractBetween t mREASONING mFINAL_ANSWER) t
        = extractBetween t mREASONING mFINAL_ANSWER
    simp [jsOr, he]
  · show jsOr (extractAfter t mFINAL_ANSWER) NO_ANSWER_SENTINEL ≠ []
    by_cases he : extractAfter t mFINAL_ANSWER = []
    · rw [he]
      decide
    · simp [jsOr, he]
  · intro ht
    show jsOr (extractBetween t mREASONING mFINAL_ANSWER) t ≠ []
    by_cases he : extractBetween t mREASONING mFINAL_ANSWER = []
    · rw [he]
      simpa [jsOr] using ht
    · simp [jsOr, he]

/-- C6 witness: the amended statement at the concrete happy-path run. -/
theorem claim6_round1_fields_witness :
    List.Forall₂ (fun (model : ModelConfig) (a : Round1Answer) =>
      a.modelId = model.id
      ∧ (extractAfter a.rawAnswer mFINAL_ANSWER = [] →
          a.finalAnswer = NO_ANSWER_SENTINEL)
      ∧ (extractAfter a.rawAnswer mFINAL_ANSWER ≠ [] →
          a.finalAnswer = extractAfter a.rawAnswer mFINAL_ANSWER)
      ∧ (extractBetween a.rawAnswer mREASONING mFINAL_ANSWER = [] →
          a.reasoning = a.rawAnswer)
      ∧ (extractBetween a.rawAnswer mREASONING mFINAL_ANSWER ≠ [] →
          a.reasoning = extractBetween a.rawAnswer mREASONING mFINAL_ANSWER)
      ∧ a.finalAnswer ≠ []
      ∧ (a.rawAnswer ≠ [] → a.reasoning ≠ [])) MODELS wRound1 :=
  claim6_round1_fields wQuestion happyClients wRound1 (by rfl)

/-! ## Claim C8 -/

/-- C8: a failure of a provider not covered by the soft-fail policy
(Anthropic or OpenAI) propagates out of `callLLM` unchanged (while the
Gemini branch can never propagate an error), and whenever the debate
pipeline surfaces an error on a valid question, the handler answers
`{ error, message }` with status 500 and no `DebateResult` — not even a
partial one — is returned. -/
theorem claim8_hard_failure :
    (∀ (clients : Clients) (sys usr : Str) (mt : Nat) (e : Str),
      clients.anthropic (CLAUDE_CONFIG).modelName
          (sys ++ ("\n\n").toList ++ usr) (getMaxTokensForProvider .anthropic mt)
        = .error e →
      callLLM CLAUDE_CONFIG sys usr clients mt = .error e)
    ∧ (∀ (clients : Clients) (sys usr : Str) (mt : Nat) (e : Str),
      clients.openai (GPT_CONFIG).modelName sys usr
          (getMaxTokensForProvider .openai mt) = .error e →
      callLLM GPT_CONFIG sys usr clients mt = .error e)
    ∧ (∀ (clients : Clients) (sys usr : Str) (mt : Nat) (e : Str),
      callLLM GEMINI_CONFIG sys usr clients mt ≠ .error e)
    ∧ (∀ (q : Str) (clients : Clients) (e : Str), q ≠ [] →
      runDebate q clients = .error e →
      POST (.str q) clients
          = ⟨500, .serverError (("Internal server error").toList) e⟩
        ∧ ∀ d, (POST (.str q) clients).body ≠ .result d) := by
  refine ⟨?_, ?_, ?_, ?_⟩
  · intro clients sys usr mt e he
    rw [callLLM_anthropic_unfold, he]
  · intro clients sys usr mt e he
    rw [callLLM_openai_unfold, he]
  · intro clients sys usr mt e
    rw [callLLM_google_unfold]
    rcases hg : clients.google (GEMINI_CONFIG).modelName sys usr
        (getMaxTokensForProvider .google mt) with e' | inner
    · simp
    · cases inner with
      | error e'' => simp
      | ok t =>
        by_cases ht : trim t = [] <;> simp [ht]
  · intro q clients e hq hdeb
    have hp : POST (.str q) clients
        = ⟨500, .serverError (("Internal server error").toList) e⟩ := by
      simp only [POST, if_neg hq, hdeb]
    refine ⟨hp, ?_⟩
    intro d
    rw [hp]
    simp

/-- C8 witness: a concrete hard-failing Anthropic call aborts the whole
request with a 500 `{ error, message }` response. -/
theorem claim8_hard_failure_witness :
    POST (.str wQuestion) c8Clients
      = ⟨500, .serverError (("Internal server error").toList) (("boom").toList)⟩ :=
  (claim8_hard_failure.2.2.2 wQuestion c8Clients (("boom").toList)
    (by decide) (by rfl)).1

/-! ## Claim C9 -/

/-- C9: a missing, non-string or empty `question` is answered with a 400
`{ error }` response whatever the clients are (so no agent is invoked and
no round executes); for any non-empty string question the three rounds run:
the response is either 200 with a complete `DebateResult` (one Round 1 and
one Round 2 entry per configured agent) or 500 with `{ error, message }`,
never a validation error. -/
theorem claim9_validation :
    (∀ clients, POST .missing clients
        = ⟨400, .clientError (("Missing or invalid question").toList)⟩)
    ∧ (∀ clients, POST .notString clients
        = ⟨400, .clientError (("Missing or invalid question").toList)⟩)
    ∧ (∀ clients, POST (.str []) clients
        = ⟨400, .clientError (("Missing or invalid question").toList)⟩)
    ∧ (∀ (q : Str) (clients : Clients), q ≠ [] →
        (∃ d, POST (.str q) clients = ⟨200, .result d⟩ ∧ d.question = q
          ∧ d.round1.length = MODELS.length ∧ d.round2.length = MODELS.length
          ∧ d.chosenFrom = d.round2.map (fun c => c.modelId))
        ∨ (∃ e, POST (.str q) clients
            = ⟨500, .serverError (("Internal server error").toList) e⟩)) := by
  refine ⟨fun _ => rfl, fun _ => rfl, fun _ => rfl, ?_⟩
  intro q clients hq
  rcases hr1 : runRound1 q clients with e1 | r1
  · refine .inr ⟨e1, ?_⟩
    have hdeb : runDebate q clients = .error e1 := by
      simp only [runDebate, hr1]
    simp only [POST, if_neg hq, hdeb]
  · rcases hr2 : runRound2 q r1 clients with e2 | r2
    · refine .inr ⟨e2, ?_⟩
      have hdeb : runDebate q clients = .error e2 := by
        simp only [runDebate, hr1, hr2]
      simp only [POST, if_neg hq, hdeb]
    · rcases hr3 : runRound3 q r1 r2 clients with e3 | p
      · refine .inr ⟨e3, ?_⟩
        have hdeb : runDebate q clients = .error e3 := by
          simp only [runDebate, hr1, hr2, hr3]
        simp only [POST, if_neg hq, hdeb]
      · obtain ⟨fin, rat⟩ := p
        have hdeb : runDebate q clients
            = .ok ⟨q, r1, r2, fin, rat, r2.map (fun r => r.modelId)⟩ := by
          simp only [runDebate, hr1, hr2, hr3]
        refine .inl ⟨⟨q, r1, r2, fin, rat, r2.map (fun r => r.modelId)⟩,
          by simp only [POST, if_neg hq, hdeb], rfl, ?_, ?_, rfl⟩
        · have := congrArg List.length (runRound1_modelIds hr1)
          simpa using this
        · have h1 := congrArg List.length (runRound1_modelIds hr1)
          have h2 := congrArg List.length (runRound2_modelIds hr2)
          simp only [List.length_map] at h1 h2
          simp only [List.length_map]
          omega

/-- C9 witness: the 400 branch and a concrete completed run of the three
rounds. -/
theorem claim9_validation_witness :
    POST .missing happyClients
      = ⟨400, .clientError (("Missing or invalid question").toList)⟩
    ∧ ((∃ d, POST (.str wQuestion) happyClients = ⟨200, .result d⟩
          ∧ d.question = wQuestion
          ∧ d.round1.length = MODELS.length ∧ d.round2.length = MODELS.length
          ∧ d.chosenFrom = d.round2.map (fun c => c.modelId))
        ∨ (∃ e, POST (.str wQuestion) happyClients
            = ⟨500, .serverError (("Internal server error").toList) e⟩)) :=
  ⟨claim9_validation.1 happyClients,
    claim9_validation.2.2.2 wQuestion happyClients (by decide)⟩
